import Mathlib

/-!
# Verification of the vizpath tracing SDK core

Shallow embedding of the vizpath SDK (`src/sdk/vizpath/`): the span data
model (`span.py`), trace contexts (`tracer.py`), the buffered HTTP client
(`client.py`), settings validation (`config.py`), and the decorator-based
global tracer (`decorators.py`).

Modelling conventions:
* wall-clock and monotonic clock readings are passed in as explicit `Rat`
  parameters (the code reads `datetime.now` / `time.perf_counter`);
* Python floats are modelled as `Rat`;
* Python exceptions are modelled by the `PyExc` inductive and fallible
  code returns `Except PyExc _`;
* the network outcome of one flush attempt is an explicit `FlushEvent`
  input (connect error / timeout / HTTP response / other raised exception);
* mutable objects are passed and returned functionally.
-/

namespace Vizpath

/-- `span.SpanType`: the string enum of span categories. -/
inductive SpanType where
  | llm
  | tool
  | agent
  | retrieval
  | chain
  | custom
  deriving DecidableEq, Repr

/-- The `.value` strings of the `SpanType` members, in declaration order
(the list `[e.value for e in SpanType]` built in `decorators.py`). -/
def SpanType.values : List String :=
  ["llm", "tool", "agent", "retrieval", "chain", "custom"]

/-- The `SpanType(s)` enum call: succeeds exactly on member value strings. -/
def SpanType.fromValue : String → Option SpanType
  | "llm" => some .llm
  | "tool" => some .tool
  | "agent" => some .agent
  | "retrieval" => some .retrieval
  | "chain" => some .chain
  | "custom" => some .custom
  | _ => none

/-- `span.SpanStatus`: running / success / error. -/
inductive SpanStatus where
  | running
  | success
  | error
  deriving DecidableEq, Repr

/-- Values a Python keyword argument can carry at the call sites we model. -/
inductive PyVal where
  | vStr (s : String)
  | vNone
  | vInt (n : Int)
  | vRat (q : Rat)
  | vBool (b : Bool)
  deriving DecidableEq, Repr

/-- The vizpath exception hierarchy of `exceptions.py` (all subclasses of
`VizpathError`). -/
inductive VizKind where
  | base
  | configuration
  | connection
  | authentication
  | rateLimit
  | timeout
  deriving DecidableEq, Repr

/-- Python exceptions that the modelled code can raise or catch.  All
constructors model subclasses of Python `Exception` (so the bare
`except Exception` clause in `Client._flush` catches every one of them). -/
inductive PyExc where
  | valueError (msg : String)
  | typeError (msg : String)
  | httpxConnectError (msg : String)
  | httpxTimeout (msg : String)
  | vizpath (kind : VizKind) (msg : String)
  | other (msg : String)
  deriving DecidableEq, Repr

/-- Python `str(e)` on an exception: its message. -/
def PyExc.str : PyExc → String
  | .valueError m => m
  | .typeError m => m
  | .httpxConnectError m => m
  | .httpxTimeout m => m
  | .vizpath _ m => m
  | .other m => m

/-- `isinstance(e, vizpath.exceptions.ConfigurationError)`. -/
def PyExc.isConfigurationError : PyExc → Bool
  | .vizpath .configuration _ => true
  | _ => false

/-- `isinstance(e, httpx.ConnectError)`. -/
def PyExc.isHttpxConnectError : PyExc → Bool
  | .httpxConnectError _ => true
  | _ => false

/-- `isinstance(e, httpx.TimeoutException)`. -/
def PyExc.isHttpxTimeout : PyExc → Bool
  | .httpxTimeout _ => true
  | _ => false

/-- `isinstance(e, VizpathError)`. -/
def PyExc.isVizpathError : PyExc → Bool
  | .vizpath _ _ => true
  | _ => false

/-- The environment variables read by `config.py` default factories. -/
structure Env where
  apiKey : Option String
  apiUrl : Option String
  enabledVar : Option String
  deriving DecidableEq, Repr

/-- An empty environment (no `VIZPATH_*` variables set). -/
def defaultEnv : Env := { apiKey := none, apiUrl := none, enabledVar := none }

/-- `config.Config`: the dataclass fields. -/
structure Config where
  api_key : Option String
  base_url : String
  buffer_size : Int
  flush_interval : Rat
  timeout : Rat
  max_retries : Int
  enabled : Bool
  deriving DecidableEq, Repr

/-- The keyword parameter names accepted by the dataclass-generated
`Config.__init__` (exactly the declared fields; there is no `project_id`
field). -/
def Config.acceptedKwargs : List String :=
  ["api_key", "base_url", "buffer_size", "flush_interval", "timeout",
   "max_retries", "enabled"]

/-- Look up a keyword argument by name. -/
def kwLookup (kwargs : List (String × PyVal)) (k : String) : Option PyVal :=
  (kwargs.find? (fun p => p.1 = k)).map (fun p => p.2)

/-- Extract an `Optional[str]` field from kwargs, falling back to the
default when absent.  Call sites in the repository always pass a string or
`None` for such fields. -/
def kwStrOpt (kwargs : List (String × PyVal)) (k : String)
    (dflt : Option String) : Option String :=
  match kwLookup kwargs k with
  | some (.vStr s) => some s
  | some .vNone => none
  | some _ => dflt
  | none => dflt

/-- Extract a `str` field from kwargs, falling back to the default. -/
def kwStr (kwargs : List (String × PyVal)) (k : String) (dflt : String) :
    String :=
  match kwLookup kwargs k with
  | some (.vStr s) => s
  | _ => dflt

/-- Extract an `int` field from kwargs, falling back to the default. -/
def kwInt (kwargs : List (String × PyVal)) (k : String) (dflt : Int) : Int :=
  match kwLookup kwargs k with
  | some (.vInt n) => n
  | _ => dflt

/-- Extract a `float` field from kwargs, falling back to the default. -/
def kwRat (kwargs : List (String × PyVal)) (k : String) (dflt : Rat) : Rat :=
  match kwLookup kwargs k with
  | some (.vRat q) => q
  | _ => dflt

/-- Extract a `bool` field from kwargs, falling back to the default. -/
def kwBool (kwargs : List (String × PyVal)) (k : String) (dflt : Bool) :
    Bool :=
  match kwLookup kwargs k with
  | some (.vBool b) => b
  | _ => dflt

/-- The default-factory value of `Config.enabled`:
`os.environ.get("VIZPATH_ENABLED", "true").lower() == "true"`. -/
def Env.enabledDefault (env : Env) : Bool :=
  (env.enabledVar.getD "true").toLower = "true"

/-- The dataclass-generated `Config.__init__` called with keyword
arguments, followed by `Config.__post_init__` validation.  An unexpected
keyword name raises `TypeError` before any field is assigned; then
`__post_init__` raises `ValueError` when `buffer_size < 1` or
`flush_interval < 0.1`. -/
def Config.initKw (env : Env) (kwargs : List (String × PyVal)) :
    Except PyExc Config :=
  match kwargs.find? (fun p => !(Config.acceptedKwargs.contains p.1)) with
  | some p =>
      .error (.typeError
        ("Config.__init__ got an unexpected keyword argument " ++ p.1))
  | none =>
      let c : Config :=
        { api_key := kwStrOpt kwargs "api_key" env.apiKey
          base_url := kwStr kwargs "base_url"
            (env.apiUrl.getD "http://localhost:8000/api/v1")
          buffer_size := kwInt kwargs "buffer_size" 50
          flush_interval := kwRat kwargs "flush_interval" 5
          timeout := kwRat kwargs "timeout" 30
          max_retries := kwInt kwargs "max_retries" 3
          enabled := kwBool kwargs "enabled" env.enabledDefault }
      if c.buffer_size < 1 then
        .error (.valueError "buffer_size must be at least 1")
      else if c.flush_interval < (1 : Rat) / 10 then
        .error (.valueError "flush_interval must be at least 0.1 seconds")
      else
        .ok c

/-- `span.SpanEvent`: a timestamped point-in-time event. -/
structure SpanEvent where
  name : String
  timestamp : Rat
  attributes : List (String × String)
  deriving DecidableEq, Repr

/-- `span.SpanData`: the serializable snapshot of a span, as transmitted. -/
structure SpanData where
  span_id : String
  trace_id : String
  parent_id : Option String
  name : String
  span_type : SpanType
  status : SpanStatus
  start_time : Rat
  end_time : Option Rat
  duration_ms : Option Rat
  attributes : List (String × String)
  events : List SpanEvent
  input : Option String
  output : Option String
  error : Option String
  tokens : Option Int
  cost : Option Rat
  deriving DecidableEq, Repr

/-- `span.Span`: the mutable span object.  The code stores a reference to
the owning `TraceContext` and to the parent `Span`; only `trace_id` and the
parent id are ever read through those references, so we store them
directly. -/
structure Span where
  id : String
  trace_id : String
  parent_id : Option String
  name : String
  span_type : SpanType
  status : SpanStatus
  start_time : Rat
  start_ts : Rat
  end_time : Option Rat
  duration_ms : Option Rat
  attributes : List (String × String)
  events : List SpanEvent
  input : Option String
  output : Option String
  error : Option String
  tokens : Option Int
  cost : Option Rat
  deriving DecidableEq, Repr

/-- `Span.__init__`: a fresh running span, with the wall-clock reading and
the monotonic `time.perf_counter` reading passed explicitly. -/
def Span.create (id trace_id : String) (parent_id : Option String)
    (name : String) (span_type : SpanType) (startWall startMono : Rat) :
    Span :=
  { id := id, trace_id := trace_id, parent_id := parent_id, name := name
    span_type := span_type, status := .running, start_time := startWall
    start_ts := startMono, end_time := none, duration_ms := none
    attributes := [], events := [], input := none, output := none
    error := none, tokens := none, cost := none }

/-- `Span.set_error`: record the message and set status to error (does not
end the span). -/
def Span.setError (msg : String) (sp : Span) : Span :=
  { sp with error := some msg, status := .error }

/-- `Span.set_attributes`: merge key/value pairs (last write wins on read;
we keep the append order of updates). -/
def Span.setAttributes (kvs : List (String × String)) (sp : Span) : Span :=
  { sp with attributes := sp.attributes ++ kvs }

/-- `Span.to_data`: convert to the serializable snapshot. -/
def Span.toData (sp : Span) : SpanData :=
  { span_id := sp.id, trace_id := sp.trace_id, parent_id := sp.parent_id
    name := sp.name, span_type := sp.span_type, status := sp.status
    start_time := sp.start_time, end_time := sp.end_time
    duration_ms := sp.duration_ms, attributes := sp.attributes
    events := sp.events, input := sp.input, output := sp.output
    error := sp.error, tokens := sp.tokens, cost := sp.cost }

/-- `Span.end`: set end time from the wall clock, compute the duration
from the monotonic start marker, resolve the final status (`if status:`
takes the explicit argument; otherwise a still-running span becomes
success), and call `TraceContext._on_span_end(self)` — returned here as
the list of snapshots handed to the owning trace context by this call. -/
def Span.end (nowWall nowMono : Rat) (status : Option SpanStatus)
    (sp : Span) : Span × List SpanData :=
  let sp1 : Span :=
    { sp with end_time := some nowWall
              duration_ms := some ((nowMono - sp.start_ts) * 1000) }
  let sp2 : Span :=
    match status with
    | some st => { sp1 with status := st }
    | none =>
        if sp1.status = .running then { sp1 with status := .success }
        else sp1
  (sp2, [sp2.toData])

/-- `Span.__exit__(exc_type, exc_val, exc_tb)`: on abnormal exit record the
exception as an error first, then end the span with no explicit status. -/
def Span.exit (nowWall nowMono : Rat) (excVal : Option String) (sp : Span) :
    Span × List SpanData :=
  match excVal with
  | some msg => Span.end nowWall nowMono none (Span.setError msg sp)
  | none => Span.end nowWall nowMono none sp

/-- `tracer.TraceContext`: the per-trace registry of spans.  The span list
holds the registered span objects (their state as of the moment
modelled). -/
structure TraceContext where
  trace_id : String
  name : String
  spans : List Span
  root_span : Option String
  start_time : Rat
  end_time : Option Rat
  metadata : List (String × String)
  status : SpanStatus
  deriving DecidableEq, Repr

/-- `TraceContext.__init__`. -/
def TraceContext.create (trace_id name : String) (startWall : Rat) :
    TraceContext :=
  { trace_id := trace_id, name := name, spans := [], root_span := none
    start_time := startWall, end_time := none, metadata := []
    status := .running }

/-- `TraceContext._register_span`: append; first registration becomes the
root span. -/
def TraceContext.registerSpan (sp : Span) (ctx : TraceContext) :
    TraceContext :=
  { ctx with spans := ctx.spans ++ [sp]
             root_span := match ctx.root_span with
               | some r => some r
               | none => some sp.id }

/-- `Trace.end`: set the context end time; an explicit (truthy) status
argument overrides; otherwise a still-running trace aggregates over its
registered spans — error when any span has status error, else success. -/
def Trace.end (nowWall : Rat) (status : Option SpanStatus)
    (ctx : TraceContext) : TraceContext :=
  let ctx1 : TraceContext := { ctx with end_time := some nowWall }
  match status with
  | some st => { ctx1 with status := st }
  | none =>
      if ctx1.status = .running then
        let hasErrors := ctx.spans.any fun sp => decide (sp.status = .error)
        { ctx1 with status := if hasErrors then .error else .success }
      else ctx1

/-- Python truthiness of `config.api_key` (an `Optional[str]`): true
exactly for a non-empty string. -/
def pyTruthyStr : Option String → Bool
  | some s => !s.isEmpty
  | none => false

/-- `client.Client` state: the configuration, the pending-snapshot queue
(`queue.Queue`, FIFO, modelled front-first), and whether `_client` (the
HTTP transport, created only when `enabled and api_key`) is present. -/
structure ClientState where
  config : Config
  buffer : List SpanData
  hasHttpClient : Bool
  deriving DecidableEq, Repr

/-- `Client.__init__`: empty buffer; the HTTP transport and flush thread
are initialized only when `config.enabled and config.api_key`. -/
def Client.create (cfg : Config) : ClientState :=
  { config := cfg, buffer := []
    hasHttpClient := cfg.enabled && pyTruthyStr cfg.api_key }

/-- The outcome of the serialized batch POST attempted by one flush:
either the transport raises (connect error / timeout / any other
exception, e.g. during serialization), or an HTTP response with the given
status code and body text comes back. -/
inductive FlushEvent where
  | connectError
  | timeoutError
  | response (status : Nat) (text : String)
  | raised (e : PyExc)
  deriving DecidableEq, Repr

/-- `httpx.Response.is_success`: status in the 2xx range. -/
def isSuccessStatus (st : Nat) : Bool :=
  200 ≤ st && st < 300

/-- `Client._handle_response`: map the response status to an exception —
401 authentication, 429 rate limit, 5xx server-side connection error,
any other non-2xx a generic `VizpathError`; 2xx returns normally. -/
def Client.handleResponse (st : Nat) (text : String) : Except PyExc Unit :=
  if st = 401 then .error (.vizpath .authentication "Invalid API key")
  else if st = 429 then .error (.vizpath .rateLimit "Rate limit exceeded")
  else if 500 ≤ st then
    .error (.vizpath .connection ("Server error: " ++ toString st))
  else if !(isSuccessStatus st) then
    .error (.vizpath .base
      ("Request failed: " ++ toString st ++ " " ++ text))
  else .ok ()

/-- The body of the `try` block in `Client._flush` after the drain:
serialize and POST the batch, then run `_handle_response`. -/
def Client.attempt (ev : FlushEvent) : Except PyExc Unit :=
  match ev with
  | .connectError => .error (.httpxConnectError "connection failed")
  | .timeoutError => .error (.httpxTimeout "request timeout")
  | .response st text => Client.handleResponse st text
  | .raised e => .error e

/-- `Client._flush`: no-op without a transport; drain the whole queue;
no-op on an empty drain; otherwise run the POST attempt under the except
chain — `httpx.ConnectError` and `httpx.TimeoutException` re-enqueue every
drained snapshot, `VizpathError` and the final `except Exception` drop the
batch; a 2xx response discards the batch.  The returned flag records
whether the blocking transmission section (serialize + POST) ran during
this call. -/
def Client.flushE (ev : FlushEvent) (s : ClientState) :
    Except PyExc (ClientState × Bool) :=
  if !s.hasHttpClient then .ok (s, false)
  else
    let spans := s.buffer
    let s0 : ClientState := { s with buffer := [] }
    if spans.isEmpty then .ok (s0, false)
    else
      match Client.attempt ev with
      | .ok _ => .ok (s0, true)
      | .error e =>
          if e.isHttpxConnectError then
            .ok ({ s0 with buffer := s0.buffer ++ spans }, true)
          else if e.isHttpxTimeout then
            .ok ({ s0 with buffer := s0.buffer ++ spans }, true)
          else if e.isVizpathError then .ok (s0, true)
          else .ok (s0, true)

/-- `Client.send`: return immediately when disabled; otherwise enqueue the
snapshot, and when the queue size has reached `buffer_size`, call
`self._flush()` synchronously on the calling thread.  The flag of the
result records whether that call ran the blocking transmission section. -/
def Client.sendE (ev : FlushEvent) (sp : SpanData) (s : ClientState) :
    Except PyExc (ClientState × Bool) :=
  if !s.config.enabled then .ok (s, false)
  else
    let s1 : ClientState := { s with buffer := s.buffer ++ [sp] }
    if s.config.buffer_size ≤ (s1.buffer.length : Int) then
      Client.flushE ev s1
    else .ok (s1, false)

/-- Python `a or b` on an optional string: the default wins when the
argument is `None` or the empty string (falsy). -/
def pyOr (a : Option String) (b : String) : String :=
  match a with
  | some s => if s.isEmpty then b else s
  | none => b

/-- The span-type conversion performed by the `span` decorator:
`SpanType(span_type) if span_type in [e.value for e in SpanType] else
SpanType.CUSTOM`.  The enum call raises `ValueError` on a non-member
string; that branch is guarded by the membership test. -/
def spanTypeOf (s : String) : Except PyExc SpanType :=
  if SpanType.values.contains s then
    match SpanType.fromValue s with
    | some t => .ok t
    | none =>
        .error (.valueError (s ++ " is not a valid SpanType"))
  else .ok .custom

/-- `decorators._TraceContext`: the trace context used by decorator-based
tracing.  It also holds the `Client`; `_on_span_end` forwards
`span.to_data()` to `Client.send` — the wrappers below return those
snapshots explicitly instead of threading the client state. -/
structure DTraceContext where
  trace_id : String
  name : String
  start_time : Rat
  attributes : List (String × String)
  spans : List Span
  root_span : Option String
  deriving DecidableEq, Repr

/-- `_TraceContext.__init__`. -/
def DTraceContext.create (trace_id name : String) (startWall : Rat) :
    DTraceContext :=
  { trace_id := trace_id, name := name, start_time := startWall
    attributes := [], spans := [], root_span := none }

/-- `_TraceContext._register_span`. -/
def DTraceContext.registerSpan (sp : Span) (ctx : DTraceContext) :
    DTraceContext :=
  { ctx with spans := ctx.spans ++ [sp]
             root_span := match ctx.root_span with
               | some r => some r
               | none => some sp.id }

/-- The two ambient context variables of `decorators.py`:
`_current_trace` and `_current_span`. -/
structure Ambient where
  curTrace : Option DTraceContext
  curSpan : Option Span
  deriving DecidableEq, Repr

/-- `GlobalTracer` instance state: the lazily configured client
(`_client`). -/
structure GTState where
  client : Option ClientState
  deriving DecidableEq, Repr

/-- `GlobalTracer.configure`: builds
`Config(base_url=api_url or "http://localhost:8000", api_key=api_key,
project_id=project_id)` and a `Client` from it.  `Config` has no
`project_id` field, so the dataclass `__init__` rejects that keyword. -/
def GlobalTracer.configure (env : Env)
    (api_url api_key project_id : Option String) :
    Except PyExc ClientState :=
  let kwargs : List (String × PyVal) :=
    [("base_url", .vStr (pyOr api_url "http://localhost:8000")),
     ("api_key", match api_key with | some s => .vStr s | none => .vNone),
     ("project_id",
       match project_id with | some s => .vStr s | none => .vNone)]
  (Config.initKw env kwargs).map Client.create

/-- `GlobalTracer._ensure_configured`: auto-configure with defaults when
no client exists yet. -/
def GlobalTracer.ensureConfigured (env : Env) (gt : GTState) :
    Except PyExc (ClientState × GTState) :=
  match gt.client with
  | some c => .ok (c, gt)
  | none =>
      match GlobalTracer.configure env none none none with
      | .error e => .error e
      | .ok c => .ok (c, { client := some c })

/-- The wrapper produced by the `GlobalTracer.trace` decorator, applied to
one call.  `freshId` is the generated `uuid4` trace id and `body` is the
wrapped function, which may read and write the ambient state (through
nested decorated calls).  Returns the call result, the ambient state
observed after the wrapper returns, and the tracer state. -/
def GlobalTracer.traceWrapper {α : Type} (env : Env)
    (name : Option String) (funcName freshId : String) (startWall : Rat)
    (gt : GTState) (amb : Ambient)
    (body : Ambient → (Except PyExc α) × Ambient) :
    (Except PyExc α) × Ambient × GTState :=
  let traceName := pyOr name funcName
  match GlobalTracer.ensureConfigured env gt with
  | .error e => (.error e, amb, gt)
  | .ok (_, gt1) =>
      let ctx := DTraceContext.create freshId traceName startWall
      let token := amb.curTrace
      let amb1 : Ambient := { amb with curTrace := some ctx }
      let (res, amb2) := body amb1
      -- on exception, `context.attributes["error"] = str(e)` mutates the
      -- (now disowned) context, then the exception re-raises; the
      -- `finally` resets `_current_trace` to the token in both branches
      (res, { amb2 with curTrace := token }, gt1)

/-- The wrapper produced by the `GlobalTracer.span` decorator, applied to
one call.  With no active trace the function runs untraced.  Otherwise the
string span type is converted (unknown strings fall back to custom), a
span is created under the current span and registered, installed as
current, and the call runs inside the span enter/exit normalization.
Returns the call result, the ambient state observed after the wrapper
returns, the state of the current trace context object after registration
(`none` when no trace was active), and the snapshots handed to the context
(each forwarded to `Client.send`). -/
def GlobalTracer.spanWrapper {α : Type} (name : Option String)
    (funcName spanTypeStr freshSpanId : String)
    (startWall startMono endWall endMono : Rat) (amb : Ambient)
    (body : Ambient → (Except PyExc α) × Ambient) :
    (Except PyExc α) × Ambient × Option DTraceContext × List SpanData :=
  let spanName := pyOr name funcName
  match amb.curTrace with
  | none =>
      let (res, amb2) := body amb
      (res, amb2, none, [])
  | some ctx =>
      match spanTypeOf spanTypeStr with
      | .error e => (.error e, amb, some ctx, [])
      | .ok st =>
          let parent := amb.curSpan
          let sp := Span.create freshSpanId ctx.trace_id
            (parent.map fun p => p.id) spanName st startWall startMono
          let ctx1 := ctx.registerSpan sp
          let token := amb.curSpan
          let amb1 : Ambient := { amb with curSpan := some sp }
          let (res, amb2) := body amb1
          match res with
          | .ok v =>
              let (_, handed) := Span.exit endWall endMono none sp
              (.ok v, { amb2 with curSpan := token }, some ctx1, handed)
          | .error e =>
              let spErr := Span.setError e.str sp
              let (_, handed) :=
                Span.exit endWall endMono (some e.str) spErr
              (.error e, { amb2 with curSpan := token }, some ctx1, handed)

/-! ## Concrete fixtures used by witnesses and counterexamples -/

/-- A valid enabled configuration with an API key and `buffer_size = 1`. -/
def cfg1 : Config :=
  { api_key := some "k", base_url := "http://localhost:8000/api/v1"
    buffer_size := 1, flush_interval := 5, timeout := 30, max_retries := 3
    enabled := true }

/-- A network-backed client built from `cfg1`. -/
def client1 : ClientState := Client.create cfg1

/-- A fresh running span. -/
def spRun : Span := Span.create "s1" "t1" none "step" .tool 0 0

/-- `spRun` after `set_error`. -/
def spErr : Span := Span.setError "boom" spRun

/-- A concrete span snapshot. -/
def sd1 : SpanData := Span.toData spRun

/-- A network-backed client with one pending snapshot. -/
def client2 : ClientState :=
  { config := cfg1, buffer := [sd1], hasHttpClient := true }

/-- A trace context whose only registered span succeeded-so-far. -/
def ctxOk : TraceContext :=
  TraceContext.registerSpan spRun (TraceContext.create "t1" "tr" 0)

/-- A trace context with one error-status span registered. -/
def ctxErr : TraceContext :=
  TraceContext.registerSpan spErr (TraceContext.create "t1" "tr" 0)

/-- Ambient state with no current trace and no current span. -/
def amb0 : Ambient := { curTrace := none, curSpan := none }

/-- A fresh decorator trace context. -/
def ctx10 : DTraceContext := DTraceContext.create "t10" "tr" 0

/-- Ambient state with `ctx10` installed as the current trace. -/
def amb10 : Ambient := { curTrace := some ctx10, curSpan := none }

/-- A wrapped-function body that returns normally and leaves the ambient
state untouched. -/
def bodyPure : Ambient → (Except PyExc Nat) × Ambient :=
  fun a => (.ok 0, a)

/-! ## Helper lemmas -/

/-- `Client._flush` returns normally on every input: the except chain ends
in a catch-all `except Exception`. -/
theorem flushE_total (ev : FlushEvent) (s : ClientState) :
    ∃ r, Client.flushE ev s = .ok r := by
  simp only [Client.flushE]
  repeat' split
  all_goals exact ⟨_, rfl⟩

/-- A flush that reaches the transmission section reports it: with a
transport and a non-empty queue, every outcome yields the flag `true`. -/
theorem flushE_transmits (ev : FlushEvent) (s : ClientState)
    (h1 : s.hasHttpClient = true) (h2 : s.buffer ≠ []) :
    ∃ s2, Client.flushE ev s = .ok (s2, true) := by
  have hne : s.buffer.isEmpty = false := by
    cases hb : s.buffer with
    | nil => exact absurd hb h2
    | cons a t => rfl
  simp only [Client.flushE, h1, hne, Bool.not_true, Bool.false_eq_true,
    if_false]
  repeat' split
  all_goals exact ⟨_, rfl⟩

/-- Every non-2xx response makes `_handle_response` raise some subclass of
`VizpathError` — never an `httpx` transport exception. -/
theorem handleResponse_failure (st : Nat) (text : String)
    (h : isSuccessStatus st = false) :
    ∃ e, Client.handleResponse st text = .error e ∧
      e.isHttpxConnectError = false ∧ e.isHttpxTimeout = false ∧
      e.isVizpathError = true := by
  unfold Client.handleResponse
  split_ifs with a b c d
  · exact ⟨_, rfl, rfl, rfl, rfl⟩
  · exact ⟨_, rfl, rfl, rfl, rfl⟩
  · exact ⟨_, rfl, rfl, rfl, rfl⟩
  · exact ⟨_, rfl, rfl, rfl, rfl⟩
  · simp [h] at d

/-- A 2xx response makes `_handle_response` return normally. -/
theorem handleResponse_success (st : Nat) (text : String)
    (h : isSuccessStatus st = true) :
    Client.handleResponse st text = .ok () := by
  have hb : 200 ≤ st ∧ st < 300 := by
    simpa [isSuccessStatus] using h
  obtain ⟨hb1, hb2⟩ := hb
  simp only [Client.handleResponse, h, Bool.not_true, Bool.false_eq_true,
    if_false]
  split_ifs with a b c <;> first | rfl | omega

/-- Claim C2: with a live transport and a non-empty queue, a flush whose
POST fails at the network level (connect error or timeout) re-enqueues
every drained snapshot — the buffer afterwards equals the drained batch;
a flush receiving any HTTP response, whether a structured API failure
(401, 429, 5xx, other non-2xx) or a 2xx success, leaves zero snapshots
re-enqueued. -/
theorem flush_failure_policy (s : ClientState) (st : Nat) (text : String)
    (h1 : s.hasHttpClient = true) (h2 : s.buffer ≠ []) :
    Client.flushE .connectError s = .ok (s, true) ∧
    Client.flushE .timeoutError s = .ok (s, true) ∧
    (isSuccessStatus st = false →
      Client.flushE (.response st text) s =
        .ok ({ s with buffer := [] }, true)) ∧
    (isSuccessStatus st = true →
      Client.flushE (.response st text) s =
        .ok ({ s with buffer := [] }, true)) := by
  obtain ⟨cfg, buf, hc⟩ := s
  simp only at h1 h2
  subst h1
  have hne : buf.isEmpty = false := by
    cases hb : buf with
    | nil => exact absurd hb h2
    | cons a t => rfl
  refine ⟨?_, ?_, ?_, ?_⟩
  · simp [Client.flushE, Client.attempt, PyExc.isHttpxConnectError, hne]
  · simp [Client.flushE, Client.attempt, PyExc.isHttpxConnectError,
      PyExc.isHttpxTimeout, hne]
  · intro hf
    obtain ⟨e, he, hcc, hct, hv⟩ := handleResponse_failure st text hf
    simp [Client.flushE, Client.attempt, he, hcc, hct, hv, hne]
  · intro hs
    simp [Client.flushE, Client.attempt,
      handleResponse_success st text hs, hne]

/-- Witness for C2: on a client with one pending snapshot, a connect
error re-buffers it and a 401 drops it. -/
theorem flush_failure_policy_witness :
    Client.flushE .connectError client2 = .ok (client2, true) ∧
    Client.flushE (.response 401 "") client2 =
      .ok ({ client2 with buffer := [] }, true) := by
  have h := flush_failure_policy client2 401 "" rfl (by decide)
  exact ⟨h.1, h.2.2.1 (by decide)⟩

/-- Counterexample to claim C3: on an enabled, network-backed client with
`buffer_size = 1`, a single `send` crosses the threshold and runs the
blocking flush (serialize + HTTP POST) synchronously on the calling
thread before returning — the flag `true` records that the transmission
section ran on the caller's path, so `send` is not free of network I/O. -/
theorem send_inline_flush_cex :
    Client.sendE (.response 200 "") sd1 client1 = .ok (client1, true) := by
  rfl

/-- Claim C3 (amended): `send` below the threshold only enqueues and
performs no network I/O; once the queue size reaches `buffer_size`,
`send` itself invokes `_flush` synchronously, and with a live transport
the blocking transmission section runs on the caller's thread before
`send` returns. -/
theorem send_inline_flush_amended (ev : FlushEvent) (sp : SpanData)
    (s : ClientState) (he : s.config.enabled = true) :
    ((s.buffer.length + 1 : Int) < s.config.buffer_size →
      Client.sendE ev sp s = .ok ({ s with buffer := s.buffer ++ [sp] },
        false)) ∧
    (s.config.buffer_size ≤ (s.buffer.length + 1 : Int) →
      s.hasHttpClient = true →
      ∃ s2, Client.sendE ev sp s = .ok (s2, true)) := by
  constructor
  · intro hlt
    simp only [Client.sendE, he, Bool.not_true, Bool.false_eq_true,
      if_false]
    rw [if_neg]
    push_cast [List.length_append, List.length_singleton]
    omega
  · intro hge hc
    simp only [Client.sendE, he, Bool.not_true, Bool.false_eq_true,
      if_false]
    rw [if_pos]
    · exact flushE_transmits ev _ hc (by simp)
    · push_cast [List.length_append, List.length_singleton]
      omega

/-- Witness for the amended C3: a concrete threshold-crossing send runs
the blocking flush on the caller's path. -/
theorem send_inline_flush_amended_witness :
    ∃ s2, Client.sendE (.response 500 "") sd1 client1 = .ok (s2, true) :=
  (send_inline_flush_amended (.response 500 "") sd1 client1 rfl).2
    (by decide) rfl

/-- Claim C4: for every client state, snapshot, and transmission outcome
(connect failure, timeout, 401, 429, 5xx, other non-2xx, or any other
raised exception, e.g. during serialization), `Client.send` and
`Client._flush` return normally — no exception propagates to the
caller. -/
theorem send_and_flush_no_raise (ev : FlushEvent) (sp : SpanData)
    (s : ClientState) :
    (∃ r, Client.sendE ev sp s = .ok r) ∧
      ∃ r, Client.flushE ev s = .ok r := by
  refine ⟨?_, flushE_total ev s⟩
  simp only [Client.sendE]
  split
  · exact ⟨_, rfl⟩
  · split
    · exact flushE_total ev _
    · exact ⟨_, rfl⟩

/-- Claim C5: `Trace.end` called with no explicit status on a
still-running trace finalizes to success when no registered span has
status error, and to error when at least one registered span has status
error. -/
theorem trace_end_aggregate (ctx : TraceContext) (nowWall : Rat)
    (h : ctx.status = .running) :
    ((∀ sp ∈ ctx.spans, sp.status ≠ .error) →
      (Trace.end nowWall none ctx).status = .success) ∧
    ((∃ sp ∈ ctx.spans, sp.status = .error) →
      (Trace.end nowWall none ctx).status = .error) := by
  constructor
  · intro hall
    have hany : (ctx.spans.any fun sp => decide (sp.status = .error))
        = false := by
      simp only [List.any_eq_false, decide_eq_true_eq]
      exact hall
    simp [Trace.end, h, hany]
  · intro hex
    have hany : (ctx.spans.any fun sp => decide (sp.status = .error))
        = true := by
      simp only [List.any_eq_true, decide_eq_true_eq]
      exact hex
    simp [Trace.end, h, hany]

/-- Witness for C5: a trace whose only span is unfinished-but-not-error
ends success; one with an error span ends error. -/
theorem trace_end_aggregate_witness :
    (Trace.end 5 none ctxOk).status = .success ∧
    (Trace.end 5 none ctxErr).status = .error :=
  ⟨(trace_end_aggregate ctxOk 5 rfl).1 (by decide),
   (trace_end_aggregate ctxErr 5 rfl).2 (by decide)⟩

/-- Claim C6: on a span that has not resolved beyond running/error,
`end(status?)` sets the end time from the wall clock, computes the
duration in milliseconds from the monotonic start marker, resolves the
final status (the explicit argument when given, else error when the span
was already marked error, else success), and hands exactly one snapshot
— the serialized form of the ended span — to the owning trace
context. -/
theorem span_end_spec (sp : Span) (w m : Rat) (os : Option SpanStatus)
    (h : sp.status = .running ∨ sp.status = .error) :
    ((Span.end w m os sp).1.end_time = some w) ∧
    ((Span.end w m os sp).1.duration_ms =
      some ((m - sp.start_ts) * 1000)) ∧
    ((Span.end w m os sp).1.status =
      os.getD (if sp.status = .error then .error else .success)) ∧
    ((Span.end w m os sp).2 = [Span.toData (Span.end w m os sp).1]) := by
  cases os with
  | some st => simp [Span.end]
  | none =>
      rcases h with h | h <;> simp [Span.end, h]

/-- Witness for C6: ending a fresh running span at wall clock 7 and
monotonic clock 3 yields end time 7, duration 3000 ms, status success,
and one handed snapshot. -/
theorem span_end_spec_witness :
    ((Span.end 7 3 none spRun).1.end_time = some 7) ∧
    ((Span.end 7 3 none spRun).1.duration_ms =
      some ((3 - spRun.start_ts) * 1000)) ∧
    ((Span.end 7 3 none spRun).1.status =
      Option.getD none (if spRun.status = .error then .error
        else .success)) ∧
    ((Span.end 7 3 none spRun).2 =
      [Span.toData (Span.end 7 3 none spRun).1]) :=
  span_end_spec spRun 7 3 none (Or.inl rfl)

/-- Counterexample to claim C7: ending an already-ended span again is not
a no-op — the second `end` call moves the recorded end time from 10 to 20
and forwards one more snapshot to the owning trace context. -/
theorem span_double_end_cex :
    ((Span.end 10 1 none spRun).1.end_time = some 10) ∧
    ((Span.end 20 3 none (Span.end 10 1 none spRun).1).1.end_time =
      some 20) ∧
    ((Span.end 20 3 none (Span.end 10 1 none spRun).1).2.length = 1) := by
  refine ⟨rfl, rfl, rfl⟩

/-- Claim C7 (amended): a second `end` call (with no status override) is
unguarded: it overwrites the end time and duration with the later clock
readings, keeps the already-resolved status (which is never running after
a first `end`), and forwards a second snapshot to the owning trace
context. -/
theorem span_double_end_amended (sp : Span) (w1 m1 w2 m2 : Rat) :
    ((Span.end w2 m2 none (Span.end w1 m1 none sp).1).1.end_time =
      some w2) ∧
    ((Span.end w2 m2 none (Span.end w1 m1 none sp).1).1.duration_ms =
      some ((m2 - sp.start_ts) * 1000)) ∧
    ((Span.end w2 m2 none (Span.end w1 m1 none sp).1).1.status =
      (Span.end w1 m1 none sp).1.status) ∧
    ((Span.end w2 m2 none (Span.end w1 m1 none sp).1).2 =
      [Span.toData (Span.end w2 m2 none (Span.end w1 m1 none sp).1).1])
    := by
  cases hs : sp.status <;> simp [Span.end, hs]

/-- Claim C8: for a wrapped function whose body leaves the ambient state
as it found it (as every body built from these decorators does), both the
`trace` wrapper and the `span` wrapper restore the ambient current-trace
and current-span values observed after the call to their values before
the call — the token-based `finally` reset runs whether the body returned
or raised, and the pre-installation failure paths never touch the
ambient state. -/
theorem decorator_ambient_restored {α : Type} (env : Env)
    (nm : Option String) (funcName freshId : String) (startWall : Rat)
    (gt : GTState) (amb : Ambient) (spanTypeStr spanId : String)
    (sw sm ew em : Rat) (body : Ambient → (Except PyExc α) × Ambient)
    (hbody : ∀ a, (body a).2 = a) :
    (GlobalTracer.traceWrapper env nm funcName freshId startWall gt amb
      body).2.1 = amb ∧
    (GlobalTracer.spanWrapper nm funcName spanTypeStr spanId sw sm ew em
      amb body).2.1 = amb := by
  obtain ⟨ct, cs⟩ := amb
  constructor
  · unfold GlobalTracer.traceWrapper
    split
    · rfl
    · simp [hbody]
  · unfold GlobalTracer.spanWrapper
    cases ct with
    | none => simp [hbody]
    | some ctx =>
        cases hty : spanTypeOf spanTypeStr with
        | error e => rfl
        | ok st =>
            simp only
            split <;> simp_all [hbody]

/-- Witness for C8: a concrete decorated call through each wrapper, with
an ambient-preserving body, returns with the ambient state it started
with. -/
theorem decorator_ambient_restored_witness :
    (GlobalTracer.traceWrapper defaultEnv none "f" "t1" 0
      { client := some client1 } amb0 bodyPure).2.1 = amb0 ∧
    (GlobalTracer.spanWrapper none "g" "tool" "s9" 0 0 1 1 amb0
      bodyPure).2.1 = amb0 :=
  decorator_ambient_restored defaultEnv none "f" "t1" 0
    { client := some client1 } amb0 "tool" "s9" 0 0 1 1 bodyPure
    (fun _ => rfl)

/-- Claim C10: for any span-type string outside the member values of
`SpanType`, the guarded conversion yields `SpanType.CUSTOM` rather than
raising, and the `span` decorator called under an active trace registers
exactly one new span, of type custom, with the current trace context. -/
theorem span_decorator_unknown_type {α : Type} (ts : String)
    (h : SpanType.values.contains ts = false) (nm : Option String)
    (funcName spanId : String) (sw sm ew em : Rat) (amb : Ambient)
    (ctx : DTraceContext) (hctx : amb.curTrace = some ctx)
    (body : Ambient → (Except PyExc α) × Ambient) :
    spanTypeOf ts = .ok .custom ∧
    (GlobalTracer.spanWrapper nm funcName ts spanId sw sm ew em amb
      body).2.2.1 =
      some (DTraceContext.registerSpan
        (Span.create spanId ctx.trace_id (amb.curSpan.map fun p => p.id)
          (pyOr nm funcName) .custom sw sm) ctx) := by
  have hty : spanTypeOf ts = .ok .custom := by
    simp only [spanTypeOf, h, Bool.false_eq_true, if_false]
  refine ⟨hty, ?_⟩
  unfold GlobalTracer.spanWrapper
  rw [hctx]
  simp only [hty]
  split <;> rfl

/-- Witness for C10: the string "database" is no `SpanType` member; under
an active trace the decorator registers one custom-typed span. -/
theorem span_decorator_unknown_type_witness :
    spanTypeOf "database" = .ok .custom ∧
    (GlobalTracer.spanWrapper none "q" "database" "s10" 0 0 1 1 amb10
      bodyPure).2.2.1 =
      some (DTraceContext.registerSpan
        (Span.create "s10" ctx10.trace_id
          (amb10.curSpan.map fun p => p.id) (pyOr none "q") .custom 0 0)
        ctx10) :=
  span_decorator_unknown_type "database" (by decide) none "q" "s10"
    0 0 1 1 amb10 ctx10 rfl bodyPure

/-- `Config(buffer_size=b, flush_interval=q)` evaluated: both keywords are
accepted, the remaining fields take their defaults, and `__post_init__`
validates the two bounds. -/
theorem initKw_two (env : Env) (b : Int) (q : Rat) :
    Config.initKw env
      [("buffer_size", PyVal.vInt b), ("flush_interval", PyVal.vRat q)] =
    (if b < 1 then
      Except.error (.valueError "buffer_size must be at least 1")
    else if q < (1 : Rat) / 10 then
      Except.error (.valueError "flush_interval must be at least 0.1 seconds")
    else Except.ok
      { api_key := env.apiKey
        base_url := env.apiUrl.getD "http://localhost:8000/api/v1"
        buffer_size := b, flush_interval := q, timeout := 30
        max_retries := 3, enabled := env.enabledDefault }) := rfl

/-- Counterexample to claim C9: `Config(buffer_size=0)` raises
`ValueError`, not the (defined but never raised) `ConfigurationError`. -/
theorem config_error_type_cex :
    Config.initKw defaultEnv [("buffer_size", PyVal.vInt 0)] =
      .error (.valueError "buffer_size must be at least 1") ∧
    PyExc.isConfigurationError
      (.valueError "buffer_size must be at least 1") = false :=
  ⟨rfl, rfl⟩

/-- Claim C9 (amended): constructing a `Config` with `buffer_size < 1` or
`flush_interval < 0.1` raises `ValueError` synchronously from the
constructor; construction with `buffer_size ≥ 1` and
`flush_interval ≥ 0.1` succeeds without raising. -/
theorem config_validation_amended (env : Env) (b : Int) (q : Rat) :
    (b < 1 →
      Config.initKw env [("buffer_size", PyVal.vInt b),
        ("flush_interval", PyVal.vRat q)] =
        .error (.valueError "buffer_size must be at least 1")) ∧
    (1 ≤ b → q < (1 : Rat) / 10 →
      Config.initKw env [("buffer_size", PyVal.vInt b),
        ("flush_interval", PyVal.vRat q)] =
        .error
          (.valueError "flush_interval must be at least 0.1 seconds")) ∧
    (1 ≤ b → (1 : Rat) / 10 ≤ q →
      Config.initKw env [("buffer_size", PyVal.vInt b),
        ("flush_interval", PyVal.vRat q)] =
        .ok { api_key := env.apiKey
              base_url := env.apiUrl.getD "http://localhost:8000/api/v1"
              buffer_size := b, flush_interval := q, timeout := 30
              max_retries := 3, enabled := env.enabledDefault }) := by
  refine ⟨?_, ?_, ?_⟩
  · intro h
    rw [initKw_two, if_pos h]
  · intro h1 h2
    rw [initKw_two, if_neg (by omega), if_pos h2]
  · intro h1 h2
    rw [initKw_two, if_neg (by omega), if_neg (not_lt.mpr h2)]

/-- Witness for the amended C9: `buffer_size = 0` raises `ValueError`;
`buffer_size = 50`, `flush_interval = 5` succeeds. -/
theorem config_validation_amended_witness :
    Config.initKw defaultEnv [("buffer_size", PyVal.vInt 0),
      ("flush_interval", PyVal.vRat 5)] =
      .error (.valueError "buffer_size must be at least 1") ∧
    Config.initKw defaultEnv [("buffer_size", PyVal.vInt 50),
      ("flush_interval", PyVal.vRat 5)] =
      .ok { api_key := defaultEnv.apiKey
            base_url :=
              defaultEnv.apiUrl.getD "http://localhost:8000/api/v1"
            buffer_size := 50, flush_interval := 5, timeout := 30
            max_retries := 3, enabled := defaultEnv.enabledDefault } :=
  ⟨(config_validation_amended defaultEnv 0 5).1 (by decide),
   (config_validation_amended defaultEnv 50 5).2.2 (by decide)
     (by norm_num)⟩

/-- Claim C1 is the documented intent, but the code diverges: with no
client configured yet, the `trace` decorator's lazy auto-configuration
calls `Config(base_url=..., api_key=None, project_id=None)`, and the
`Config` dataclass has no `project_id` field, so the call raises
`TypeError` before any client is built — the wrapped function never runs
(here `bodyPure` would have returned `ok 0`), and the tracer is left
unconfigured. -/
theorem trace_decorator_autoconfigure_bug :
    GlobalTracer.traceWrapper defaultEnv none "task" "tid-1" 0
      { client := none } amb0 bodyPure =
      (.error (.typeError
        "Config.__init__ got an unexpected keyword argument project_id"),
       amb0, { client := none }) := rfl

end Vizpath
